import Mathlib

/-!
Verification of the calculator repository (console calculator `calculater.py`
and GUI calculator `smart_calculator_gui.py`) against its specification.

Modelling conventions.
Python numbers are modelled exactly: `int` by `ℤ`, `float` by `ℚ` (an
idealized float with exact arithmetic; the spec's claims are about values and
error cases, not rounding).  The transcendental host functions
(`math.sin`, `math.log10`, ...) are not computable over `ℚ`, so the embedding
is parameterized by a structure `Trans` of abstract functions `ℚ → ℚ`;
everything the code does around those calls (degree conversion, domain
checks, namespace wiring, error wrapping) is modelled concretely.
-/

deriving instance DecidableEq for Except

namespace Calc

/-- Abstract interface for the host math library's transcendental functions
(`math.sin`, `math.cos`, ..., `math.sqrt`, `math.log`, `math.log10`,
`math.exp`, two-argument `math.log` and `math.pow`) and the float constants
`math.pi` and `math.e`.  Each is an unconstrained function on idealized
floats; theorems that need specific values (for example `log10 100 = 2`)
take them as hypotheses. -/
structure Trans where
  sin : ℚ → ℚ
  cos : ℚ → ℚ
  tan : ℚ → ℚ
  asin : ℚ → ℚ
  acos : ℚ → ℚ
  atan : ℚ → ℚ
  sinh : ℚ → ℚ
  cosh : ℚ → ℚ
  tanh : ℚ → ℚ
  exp : ℚ → ℚ
  log : ℚ → ℚ
  log10 : ℚ → ℚ
  sqrt : ℚ → ℚ
  logBase : ℚ → ℚ → ℚ
  powf : ℚ → ℚ → ℚ
  pi : ℚ
  e : ℚ

/-- Python `int(x)` on a float: truncation toward zero.  A rational in
lowest terms with positive denominator truncates to `num.tdiv den`
(`Int.tdiv` is T-division, rounding toward zero); `pyInt_trunc` below
checks this against the floor/ceiling characterization. -/
def pyInt (q : ℚ) : ℤ := q.num.tdiv (q.den : ℤ)

/-- Python `float(x).is_integer()` for an idealized float `x : ℚ`. -/
def isIntegerFloat (q : ℚ) : Bool := q.den = 1

/-- Error kinds raised by the operation library, named after the spec's error
taxonomy (`ZeroDivisionError` → DivisionByZero, domain `ValueError` →
DomainError, clamp `ValueError` → InvalidRange). -/
inductive OpErr where
  | divisionByZero : OpErr
  | domainError : OpErr
  | invalidRange : OpErr
deriving DecidableEq, Repr

/-- Source `add(x, y)`: `float(x + y)`. -/
def add (x y : ℚ) : ℚ := x + y

/-- Source `subtract(x, y)`: `float(x - y)`. -/
def subtract (x y : ℚ) : ℚ := x - y

/-- Source `multiply(x, y)`: `float(x * y)`. -/
def multiply (x y : ℚ) : ℚ := x * y

/-- Source `divide(x, y)`: raises `ZeroDivisionError` when `y == 0`, else
returns `float(x / y)`. -/
def divide (x y : ℚ) : Except OpErr ℚ :=
  if y = 0 then .error .divisionByZero else .ok (x / y)

/-- Source `square_root(x)`: raises `ValueError` when `x < 0`, else
`math.sqrt(x)`. -/
def square_root (T : Trans) (x : ℚ) : Except OpErr ℚ :=
  if x < 0 then .error .domainError else .ok (T.sqrt x)

/-- Source `to_radians(x)`: `math.radians(float(x))`, that is `x * pi / 180`. -/
def to_radians (T : Trans) (x : ℚ) : ℚ := x * T.pi / 180

/-- Source `sine(x)`: `math.sin(math.radians(float(x)))` — the input is taken
in degrees. -/
def sine (T : Trans) (x : ℚ) : ℚ := T.sin (x * T.pi / 180)

/-- Source `cosine(x)`: `math.cos(math.radians(float(x)))`. -/
def cosine (T : Trans) (x : ℚ) : ℚ := T.cos (x * T.pi / 180)

/-- Source `tangent(x)`: `math.tan(math.radians(float(x)))`. -/
def tangent (T : Trans) (x : ℚ) : ℚ := T.tan (x * T.pi / 180)

/-- Source `factorial(x)`: raises `ValueError` unless `float(x).is_integer()`;
then with `n = int(x)` raises `ValueError` when `n < 0`, else returns
`math.factorial(n)`. -/
def factorial (x : ℚ) : Except OpErr ℕ :=
  if isIntegerFloat x then
    let n := pyInt x
    if n < 0 then .error .domainError else .ok (Nat.factorial n.toNat)
  else .error .domainError

/-- Source `gcd(x, y)`: `math.gcd(int(x), int(y))` — non-negative gcd of the
truncated inputs. -/
def gcd (x y : ℚ) : ℤ := (Int.gcd (pyInt x) (pyInt y) : ℤ)

/-- Source `lcm(x, y)`: truncates both inputs, returns `0` when either is
`0`, else `abs(a * b) // math.gcd(a, b)` (Python floor division). -/
def lcm (x y : ℚ) : ℤ :=
  let a := pyInt x
  let b := pyInt y
  if a = 0 ∨ b = 0 then 0 else Int.fdiv |a * b| (Int.gcd a b : ℤ)

/-! ### The expression evaluator

`evaluate_expression` (calculater.py) and `evaluate_expression_safe`
(smart_calculator_gui.py) call the host `eval` on the input string with a
curated globals dict and empty locals.  The host expression language is
modelled by the AST `Expr` below (literals, identifier lookup, unary minus,
binary operators, calls of one or two arguments — the only arities bound in
either namespace — and attribute access); evaluation against a namespace is
modelled by `evalExpr`.  Parsing of the source text is not modelled; `render`
maps an AST back to its source text where a claim speaks about strings. -/

/-- The callables bound in the two evaluation namespaces: the degree-wrapped
trigonometric helpers defined inside `_safe_math_namespace`, the functions
taken over from `math.__dict__`, and the builtins `abs`, `round` and `pow`. -/
inductive FnId where
  | sinDeg | cosDeg | tanDeg | asinDeg | acosDeg | atanDeg
  | mathSqrt | mathLog | mathLog10 | mathExp
  | mathSinh | mathCosh | mathTanh
  | mathRadians | mathDegrees | mathFloor | mathCeil | mathFabs | mathPow
  | pyAbs | pyRound | pyPow
deriving DecidableEq, Repr

/-- A Python runtime value as the evaluator can produce it: `int`, `float`,
`bool` (a subclass of `int`), `None`, a callable from the namespace, or an
opaque host object (for example the class object an attribute access such as
`__class__` resolves to), identified by a tag string. -/
inductive PyVal where
  | int : ℤ → PyVal
  | float : ℚ → PyVal
  | bool : Bool → PyVal
  | none : PyVal
  | func : FnId → PyVal
  | obj : String → PyVal
deriving DecidableEq, Repr

/-- The host exceptions that can arise while `eval` runs the expression:
`NameError` for an identifier missing from globals (builtins are disabled by
the `__builtins__: None` entry), `TypeError` for operations on unsuitable
operands, `AttributeError` for a missing attribute, `ZeroDivisionError`, and
`ValueError` for a domain violation inside a called function.  The evaluator
wraps every one of these uniformly. -/
inductive PErr where
  | nameError : String → PErr
  | typeError : PErr
  | attributeError : PErr
  | zeroDivision : PErr
  | valueError : PErr
deriving DecidableEq, Repr

/-- Python `float(v)` as used by the namespace helpers (for example
`float(x)` inside `_sin_deg`): numbers and booleans convert, everything else
raises `TypeError`. -/
def asFloat : PyVal → Except PErr ℚ
  | .int n => .ok (n : ℚ)
  | .float q => .ok q
  | .bool b => .ok (if b then 1 else 0)
  | _ => .error .typeError

/-- Python `round` on an idealized float: round half to even. -/
def bankersRound (q : ℚ) : ℤ :=
  let f : ℤ := ⌊q⌋
  let r : ℚ := q - (f : ℚ)
  if r < 1/2 then f
  else if 1/2 < r then f + 1
  else if f % 2 = 0 then f else f + 1

/-- Interpretation of the arity-1 callables of the namespaces, mirroring the
wrappers in `_safe_math_namespace` and the corresponding `math` functions:
degree conversion for trig, the `[-1, 1]` checks of `_asin_deg`/`_acos_deg`,
the domain `ValueError` of `math.sqrt`/`math.log`/`math.log10`, and the
builtins `abs` and `round`.  Calling any of them with the wrong arity or a
non-numeric argument raises `TypeError`. -/
def applyFn1 (T : Trans) : FnId → PyVal → Except PErr PyVal
  | .sinDeg, v => do
    let q ← asFloat v
    .ok (.float (T.sin (q * T.pi / 180)))
  | .cosDeg, v => do
    let q ← asFloat v
    .ok (.float (T.cos (q * T.pi / 180)))
  | .tanDeg, v => do
    let q ← asFloat v
    .ok (.float (T.tan (q * T.pi / 180)))
  | .asinDeg, v => do
    let q ← asFloat v
    if q < -1 ∨ 1 < q then .error .valueError
    else .ok (.float (T.asin q * 180 / T.pi))
  | .acosDeg, v => do
    let q ← asFloat v
    if q < -1 ∨ 1 < q then .error .valueError
    else .ok (.float (T.acos q * 180 / T.pi))
  | .atanDeg, v => do
    let q ← asFloat v
    .ok (.float (T.atan q * 180 / T.pi))
  | .mathSqrt, v => do
    let q ← asFloat v
    if q < 0 then .error .valueError else .ok (.float (T.sqrt q))
  | .mathLog, v => do
    let q ← asFloat v
    if q ≤ 0 then .error .valueError else .ok (.float (T.log q))
  | .mathLog10, v => do
    let q ← asFloat v
    if q ≤ 0 then .error .valueError else .ok (.float (T.log10 q))
  | .mathExp, v => do
    let q ← asFloat v
    .ok (.float (T.exp q))
  | .mathSinh, v => do
    let q ← asFloat v
    .ok (.float (T.sinh q))
  | .mathCosh, v => do
    let q ← asFloat v
    .ok (.float (T.cosh q))
  | .mathTanh, v => do
    let q ← asFloat v
    .ok (.float (T.tanh q))
  | .mathRadians, v => do
    let q ← asFloat v
    .ok (.float (q * T.pi / 180))
  | .mathDegrees, v => do
    let q ← asFloat v
    .ok (.float (q * 180 / T.pi))
  | .mathFloor, v => do
    let q ← asFloat v
    .ok (.int ⌊q⌋)
  | .mathCeil, v => do
    let q ← asFloat v
    .ok (.int ⌈q⌉)
  | .mathFabs, v => do
    let q ← asFloat v
    .ok (.float |q|)
  | .pyAbs, .int n => .ok (.int |n|)
  | .pyAbs, .float q => .ok (.float |q|)
  | .pyAbs, .bool b => .ok (.int (if b then 1 else 0))
  | .pyAbs, _ => .error .typeError
  | .pyRound, .int n => .ok (.int n)
  | .pyRound, .float q => .ok (.int (bankersRound q))
  | .pyRound, .bool b => .ok (.int (if b then 1 else 0))
  | .pyRound, _ => .error .typeError
  | _, _ => .error .typeError

/-- Python arithmetic treats `bool` as the ints 0 and 1; other values are
left unchanged. -/
def boolAsInt : PyVal → PyVal
  | .bool b => .int (if b then 1 else 0)
  | v => v

/-- Python `x ** y` (also builtin `pow(x, y)`) on numeric operands: an
integer base and non-negative integer exponent give an `int`; a negative
integer exponent gives a `float` (with `ZeroDivisionError` for base 0); a
float operand with an integral value exponentiates exactly; a non-integral
exponent falls back to the abstract host power function.  Non-numeric
operands raise `TypeError`.  (Complex results for negative bases are outside
the modelled fragment; no claim exercises them.) -/
def powVal (T : Trans) (v w : PyVal) : Except PErr PyVal :=
  match boolAsInt v, boolAsInt w with
  | .int a, .int b =>
    if 0 ≤ b then .ok (.int (a ^ b.toNat))
    else if a = 0 then .error .zeroDivision
    else .ok (.float ((a : ℚ) ^ b))
  | .float a, .int b =>
    if a = 0 ∧ b < 0 then .error .zeroDivision else .ok (.float (a ^ b))
  | .int a, .float b =>
    if b.den = 1 then
      (if a = 0 ∧ b.num < 0 then .error .zeroDivision
       else .ok (.float ((a : ℚ) ^ b.num)))
    else .ok (.float (T.powf (a : ℚ) b))
  | .float a, .float b =>
    if b.den = 1 then
      (if a = 0 ∧ b.num < 0 then .error .zeroDivision
       else .ok (.float (a ^ b.num)))
    else .ok (.float (T.powf a b))
  | _, _ => .error .typeError

/-- Interpretation of the arity-2 callables: `math.log(x, base)` (computed by
the host as a quotient of logarithms, so `base = 1` raises
`ZeroDivisionError`), `math.pow`, and the builtin `pow`. -/
def applyFn2 (T : Trans) : FnId → PyVal → PyVal → Except PErr PyVal
  | .mathLog, v, w => do
    let x ← asFloat v
    let b ← asFloat w
    if x ≤ 0 ∨ b ≤ 0 then .error .valueError
    else if b = 1 then .error .zeroDivision
    else .ok (.float (T.logBase x b))
  | .mathPow, v, w => do
    let x ← asFloat v
    let b ← asFloat w
    .ok (.float (T.powf x b))
  | .pyPow, v, w => powVal T v w
  | _, _, _ => .error .typeError

/-- Binary operators of the host expression grammar that the calculator
expressions use: `+ - * / ** %` and the comparison `<`. -/
inductive Bop where
  | add | sub | mul | div | pow | mod | lt
deriving DecidableEq, Repr

/-- Python `x % y` on idealized floats: result has the sign of the divisor,
`x - y * floor(x / y)`. -/
def pyMod (x y : ℚ) : ℚ := x - y * (⌊x / y⌋ : ℚ)

/-- Semantics of a binary operator on runtime values, with Python's numeric
coercions: `bool` counts as `int`; `int op int` stays `int` except that `/`
is always float (true) division; mixing in a `float` gives a `float`;
division and modulus by zero raise `ZeroDivisionError`; non-numeric operands
raise `TypeError`. -/
def applyBop (T : Trans) (op : Bop) (v w : PyVal) : Except PErr PyVal :=
  match op with
  | .pow => powVal T v w
  | .lt =>
    match boolAsInt v, boolAsInt w with
    | .int a, .int b => .ok (.bool (a < b))
    | .int a, .float b => .ok (.bool ((a : ℚ) < b))
    | .float a, .int b => .ok (.bool (a < (b : ℚ)))
    | .float a, .float b => .ok (.bool (a < b))
    | _, _ => .error .typeError
  | .div =>
    match boolAsInt v, boolAsInt w with
    | .int a, .int b =>
      if b = 0 then .error .zeroDivision else .ok (.float ((a : ℚ) / (b : ℚ)))
    | .int a, .float b =>
      if b = 0 then .error .zeroDivision else .ok (.float ((a : ℚ) / b))
    | .float a, .int b =>
      if b = 0 then .error .zeroDivision else .ok (.float (a / (b : ℚ)))
    | .float a, .float b =>
      if b = 0 then .error .zeroDivision else .ok (.float (a / b))
    | _, _ => .error .typeError
  | .mod =>
    match boolAsInt v, boolAsInt w with
    | .int a, .int b =>
      if b = 0 then .error .zeroDivision else .ok (.int (a % b))
    | .int a, .float b =>
      if b = 0 then .error .zeroDivision else .ok (.float (pyMod (a : ℚ) b))
    | .float a, .int b =>
      if b = 0 then .error .zeroDivision else .ok (.float (pyMod a (b : ℚ)))
    | .float a, .float b =>
      if b = 0 then .error .zeroDivision else .ok (.float (pyMod a b))
    | _, _ => .error .typeError
  | .add =>
    match boolAsInt v, boolAsInt w with
    | .int a, .int b => .ok (.int (a + b))
    | .int a, .float b => .ok (.float ((a : ℚ) + b))
    | .float a, .int b => .ok (.float (a + (b : ℚ)))
    | .float a, .float b => .ok (.float (a + b))
    | _, _ => .error .typeError
  | .sub =>
    match boolAsInt v, boolAsInt w with
    | .int a, .int b => .ok (.int (a - b))
    | .int a, .float b => .ok (.float ((a : ℚ) - b))
    | .float a, .int b => .ok (.float (a - (b : ℚ)))
    | .float a, .float b => .ok (.float (a - b))
    | _, _ => .error .typeError
  | .mul =>
    match boolAsInt v, boolAsInt w with
    | .int a, .int b => .ok (.int (a * b))
    | .int a, .float b => .ok (.float ((a : ℚ) * b))
    | .float a, .int b => .ok (.float (a * (b : ℚ)))
    | .float a, .float b => .ok (.float (a * b))
    | _, _ => .error .typeError

/-- Unary minus on a runtime value. -/
def negVal : PyVal → Except PErr PyVal
  | .int n => .ok (.int (-n))
  | .float q => .ok (.float (-q))
  | .bool b => .ok (.int (-(if b then 1 else 0)))
  | _ => .error .typeError

/-- The Python type name of a value, as `type(v).__name__` would give it. -/
def typeName : PyVal → String
  | .int _ => "int"
  | .float _ => "float"
  | .bool _ => "bool"
  | .none => "NoneType"
  | .func _ => "function"
  | .obj _ => "type"

/-- Attribute access on a runtime value.  Every Python object carries the
`__class__` attribute, which resolves to the host class object — that is the
access relevant to the sandbox claims; any other attribute is modelled as
`AttributeError`. -/
def getAttr (v : PyVal) (fld : String) : Except PErr PyVal :=
  if fld = "__class__" then .ok (.obj (typeName v)) else .error .attributeError

/-- The host expression AST: number literals, identifier lookup, unary
minus, binary operations, calls with one or two arguments, and attribute
access. -/
inductive Expr where
  | intLit : ℤ → Expr
  | floatLit : ℚ → Expr
  | name : String → Expr
  | neg : Expr → Expr
  | binop : Bop → Expr → Expr → Expr
  | call1 : Expr → Expr → Expr
  | call2 : Expr → Expr → Expr → Expr
  | attr : Expr → String → Expr
deriving DecidableEq, Repr

/-- Evaluation of an expression against a namespace `ns` (the curated
globals dict), with empty locals and builtins disabled: an identifier not in
`ns` raises `NameError`; a call evaluates the callee, then the arguments
left to right; calling a non-callable raises `TypeError`. -/
def evalExpr (T : Trans) (ns : String → Option PyVal) : Expr → Except PErr PyVal
  | .intLit n => .ok (.int n)
  | .floatLit q => .ok (.float q)
  | .name s =>
    match ns s with
    | some v => .ok v
    | none => .error (.nameError s)
  | .neg a => do
    let v ← evalExpr T ns a
    negVal v
  | .binop op a b => do
    let v ← evalExpr T ns a
    let w ← evalExpr T ns b
    applyBop T op v w
  | .call1 f a => do
    let fv ← evalExpr T ns f
    let v ← evalExpr T ns a
    match fv with
    | .func fn => applyFn1 T fn v
    | _ => .error .typeError
  | .call2 f a b => do
    let fv ← evalExpr T ns f
    let v ← evalExpr T ns a
    let w ← evalExpr T ns b
    match fv with
    | .func fn => applyFn2 T fn v w
    | _ => .error .typeError
  | .attr a fld => do
    let v ← evalExpr T ns a
    getAttr v fld

/-- The restricted namespace built by `_safe_math_namespace(memory)` in
calculater.py: every non-dunder `math` name (modelled here by the
functions and constants the module actually documents and the claims
exercise; the `if not name.startswith("__")` filter admits no
double-underscore identifier), the builtins `abs` and `round`, the constants
`pi` and `e`, the memory placeholder `M` bound to the memory value — bound
to `None` when no prior result exists — and finally the degree-based trig
wrappers, which override the radian-based `math` versions. -/
def safeMathNamespace (T : Trans) (memory : Option PyVal) (s : String) : Option PyVal :=
  if s = "sqrt" then some (.func .mathSqrt)
  else if s = "log" then some (.func .mathLog)
  else if s = "log10" then some (.func .mathLog10)
  else if s = "exp" then some (.func .mathExp)
  else if s = "sinh" then some (.func .mathSinh)
  else if s = "cosh" then some (.func .mathCosh)
  else if s = "tanh" then some (.func .mathTanh)
  else if s = "radians" then some (.func .mathRadians)
  else if s = "degrees" then some (.func .mathDegrees)
  else if s = "floor" then some (.func .mathFloor)
  else if s = "ceil" then some (.func .mathCeil)
  else if s = "fabs" then some (.func .mathFabs)
  else if s = "pow" then some (.func .mathPow)
  else if s = "abs" then some (.func .pyAbs)
  else if s = "round" then some (.func .pyRound)
  else if s = "pi" then some (.float T.pi)
  else if s = "e" then some (.float T.e)
  else if s = "M" then some (match memory with | some v => v | Option.none => .none)
  else if s = "sin" then some (.func .sinDeg)
  else if s = "cos" then some (.func .cosDeg)
  else if s = "tan" then some (.func .tanDeg)
  else if s = "asin" then some (.func .asinDeg)
  else if s = "acos" then some (.func .acosDeg)
  else if s = "atan" then some (.func .atanDeg)
  else none

/-- The restricted namespace built by `_safe_math_namespace()` in
smart_calculator_gui.py: the same non-dunder `math` names and degree trig
overrides, `abs` and `round`, the builtin `pow` (which replaces `math.pow`),
and `pi`/`e` — but no memory placeholder. -/
def guiMathNamespace (T : Trans) (s : String) : Option PyVal :=
  if s = "sqrt" then some (.func .mathSqrt)
  else if s = "log" then some (.func .mathLog)
  else if s = "log10" then some (.func .mathLog10)
  else if s = "exp" then some (.func .mathExp)
  else if s = "sinh" then some (.func .mathSinh)
  else if s = "cosh" then some (.func .mathCosh)
  else if s = "tanh" then some (.func .mathTanh)
  else if s = "radians" then some (.func .mathRadians)
  else if s = "degrees" then some (.func .mathDegrees)
  else if s = "floor" then some (.func .mathFloor)
  else if s = "ceil" then some (.func .mathCeil)
  else if s = "fabs" then some (.func .mathFabs)
  else if s = "pow" then some (.func .pyPow)
  else if s = "abs" then some (.func .pyAbs)
  else if s = "round" then some (.func .pyRound)
  else if s = "pi" then some (.float T.pi)
  else if s = "e" then some (.float T.e)
  else if s = "sin" then some (.func .sinDeg)
  else if s = "cos" then some (.func .cosDeg)
  else if s = "tan" then some (.func .tanDeg)
  else if s = "asin" then some (.func .asinDeg)
  else if s = "acos" then some (.func .acosDeg)
  else if s = "atan" then some (.func .atanDeg)
  else none

/-- Scan a character list for two adjacent underscores. -/
def dunderAux : List Char → Bool
  | c :: d :: rest => (c = '_' && d = '_') || dunderAux (d :: rest)
  | _ => false

/-- Whether a character string contains two consecutive underscores. -/
def strHasDunder (s : String) : Bool :=
  dunderAux s.toList

/-- The GUI evaluator's banned-substring check, a test of the source text:
an expression's source text contains the substring `__` exactly when one of
its identifiers or attribute names does, since number literals and operator
glyphs contain no underscores. -/
def hasDunder : Expr → Bool
  | .intLit _ => false
  | .floatLit _ => false
  | .name s => strHasDunder s
  | .neg a => hasDunder a
  | .binop _ a b => hasDunder a || hasDunder b
  | .call1 f a => hasDunder f || hasDunder a
  | .call2 f a b => hasDunder f || hasDunder a || hasDunder b
  | .attr a fld => hasDunder a || strHasDunder fld

/-- The failures `evaluate_expression` and `evaluate_expression_safe` report,
named after the spec's error taxonomy: `InvalidExpression` for empty input,
the GUI dunder check, or any host exception surfaced while evaluating (all
re-raised as `ValueError` with a message); `NonNumericResult` when the
result is neither numeric nor convertible to float. -/
inductive EvalErr where
  | invalidExpression : EvalErr
  | nonNumericResult : EvalErr
deriving DecidableEq, Repr

/-- Python `float(v)` at the result-conversion step: numbers and booleans
convert, everything else fails. -/
def floatConv : PyVal → Option ℚ
  | .int n => some (n : ℚ)
  | .float q => some q
  | .bool b => some (if b then 1 else 0)
  | _ => Option.none

/-- Python `isinstance(v, (int, float))`; `bool` is a subclass of `int`. -/
def isNumericInstance : PyVal → Bool
  | .int _ => true
  | .float _ => true
  | .bool _ => true
  | _ => false

/-- calculater.py `evaluate_expression(expr, memory)`: evaluate against
`_safe_math_namespace(memory)` with `__builtins__` disabled and empty
locals; any host exception is re-raised as `ValueError` (InvalidExpression);
an `int`/`float` (hence also `bool`) result is returned unchanged, any other
result is converted with `float(...)` or reported as `ValueError`
(NonNumericResult).  The guard on empty/whitespace-only source text precedes
parsing and is not modelled at the AST level. -/
def evaluate_expression (T : Trans) (e : Expr) (memory : Option PyVal) :
    Except EvalErr PyVal :=
  match evalExpr T (safeMathNamespace T memory) e with
  | .error _ => .error .invalidExpression
  | .ok v =>
    if isNumericInstance v then .ok v
    else match floatConv v with
      | some q => .ok (.float q)
      | Option.none => .error .nonNumericResult

/-- smart_calculator_gui.py `evaluate_expression_safe(expr)`: rejects any
source text containing `__` before evaluating, evaluates against the GUI
namespace, and always returns a `float` (or the corresponding typed
failure).  The source's `isinstance` branch and its `float(result)` fallback
are the same conversion: `float(...)` succeeds exactly on the numeric
values, so both branches are rendered by the one `floatConv` match. -/
def evaluate_expression_safe (T : Trans) (e : Expr) : Except EvalErr ℚ :=
  if hasDunder e then .error .invalidExpression
  else match evalExpr T (guiMathNamespace T) e with
  | .error _ => .error .invalidExpression
  | .ok v =>
    match floatConv v with
    | some q => .ok q
    | Option.none => .error .nonNumericResult

/-- Rendering an AST back to the source text the evaluator was handed, used
where a claim relates a produced expression string to its value. -/
def bopText : Bop → String
  | .add => "+"
  | .sub => "-"
  | .mul => "*"
  | .div => "/"
  | .pow => "**"
  | .mod => "%"
  | .lt => "<"

/-- Source text of an expression (binary nodes print in the parenthesized
form the phrase normalizer emits). -/
def render : Expr → String
  | .intLit n => toString n
  | .floatLit q => toString q
  | .name s => s
  | .neg a => "-" ++ render a
  | .binop op a b => "(" ++ render a ++ " " ++ bopText op ++ " " ++ render b ++ ")"
  | .call1 f a => render f ++ "(" ++ render a ++ ")"
  | .call2 f a b => render f ++ "(" ++ render a ++ ", " ++ render b ++ ")"
  | .attr a fld => render a ++ "." ++ fld

/-! ### The remaining library operations

The operations bound in the console menu's catalogs, continuing the
idealized-float convention of the operations above. -/

/-- Source `log10(x)`: raises `ValueError` when `x <= 0`. -/
def log10 (T : Trans) (x : ℚ) : Except OpErr ℚ :=
  if x ≤ 0 then .error .domainError else .ok (T.log10 x)

/-- Source `natural_log(x)`: raises `ValueError` when `x <= 0`. -/
def natural_log (T : Trans) (x : ℚ) : Except OpErr ℚ :=
  if x ≤ 0 then .error .domainError else .ok (T.log x)

/-- Source `absolute(x)`: `abs(x)`. -/
def absolute (x : ℚ) : ℚ := |x|

/-- Source `power_of_ten(x)`: `float(10**x)` — exact for an integral
exponent, the abstract host power otherwise. -/
def power_of_ten (T : Trans) (x : ℚ) : ℚ :=
  if x.den = 1 then (10 : ℚ) ^ x.num else T.powf 10 x

/-- Source `to_degrees(x)`: `math.degrees(float(x))`. -/
def to_degrees (T : Trans) (x : ℚ) : ℚ := x * 180 / T.pi

/-- Source `sign(x)`: 1, -1 or 0 by the sign of `x`. -/
def sign (x : ℚ) : ℤ :=
  if x > 0 then 1 else if x < 0 then -1 else 0

/-- Source `sinh(x)`: `math.sinh(float(x))`. -/
def sinh (T : Trans) (x : ℚ) : ℚ := T.sinh x

/-- Source `cosh(x)`: `math.cosh(float(x))`. -/
def cosh (T : Trans) (x : ℚ) : ℚ := T.cosh x

/-- Source `tanh(x)`: `math.tanh(float(x))`. -/
def tanh (T : Trans) (x : ℚ) : ℚ := T.tanh x

/-- Source `asin(x)`: raises `ValueError` outside `[-1, 1]`, else returns
degrees. -/
def asin (T : Trans) (x : ℚ) : Except OpErr ℚ :=
  if x < -1 ∨ 1 < x then .error .domainError
  else .ok (T.asin x * 180 / T.pi)

/-- Source `acos(x)`: raises `ValueError` outside `[-1, 1]`, else returns
degrees. -/
def acos (T : Trans) (x : ℚ) : Except OpErr ℚ :=
  if x < -1 ∨ 1 < x then .error .domainError
  else .ok (T.acos x * 180 / T.pi)

/-- Source `atan(x)`: `math.degrees(math.atan(float(x)))`, total. -/
def atan (T : Trans) (x : ℚ) : ℚ := T.atan x * 180 / T.pi

/-- Source `exponent(x, y)`: `float(x**y)` — exact for an integral exponent
(`0 ** negative` raises `ZeroDivisionError`, uncaught by the source and
mapped to DivisionByZero), the abstract host power otherwise (complex
results for negative bases are outside the modelled fragment). -/
def exponent (T : Trans) (x y : ℚ) : Except OpErr ℚ :=
  if y.den = 1 then
    (if x = 0 ∧ y.num < 0 then .error .divisionByZero else .ok (x ^ y.num))
  else .ok (T.powf x y)

/-- Source `modulus(x, y)`: raises `ZeroDivisionError` when `y == 0`, else
`float(x % y)`. -/
def modulus (x y : ℚ) : Except OpErr ℚ :=
  if y = 0 then .error .divisionByZero else .ok (pyMod x y)

/-- Source `floor_divide(x, y)`: raises `ZeroDivisionError` when `y == 0`,
else `int(x // y)` — the floor of the quotient. -/
def floor_divide (x y : ℚ) : Except OpErr ℤ :=
  if y = 0 then .error .divisionByZero else .ok ⌊x / y⌋

/-- Source `percentage(x, percent)`: `float((x * percent) / 100.0)`. -/
def percentage (x p : ℚ) : ℚ := x * p / 100

/-- Source `log_custom(x, base)`: raises `ValueError` when `x <= 0`,
`base <= 0` or `base == 1`, else `math.log(x, base)`. -/
def log_custom (T : Trans) (x base : ℚ) : Except OpErr ℚ :=
  if x ≤ 0 ∨ base ≤ 0 ∨ base = 1 then .error .domainError
  else .ok (T.logBase x base)

/-- Source `clamp(x, min_value, max_value)`: raises `ValueError` when
`min_value > max_value`, else `float(max(min(x, max_value), min_value))`. -/
def clamp (x mn mx : ℚ) : Except OpErr ℚ :=
  if mn > mx then .error .invalidRange else .ok (max (min x mx) mn)

/-! ### The console operation catalogs

`UNARY_OPS` and `BINARY_OPS` in calculater.py map a menu-choice string to a
display name and a callable.  Results are tagged `int` or `float` after the
source functions' return types. -/

/-- The `UNARY_OPS` catalog (choices 7, 9-19, 25-30). -/
def UNARY_OPS (T : Trans) (c : String) :
    Option (String × (ℚ → Except OpErr PyVal)) :=
  if c = "7" then some ("square_root", fun x => (square_root T x).map .float)
  else if c = "9" then some ("log10", fun x => (log10 T x).map .float)
  else if c = "10" then some ("ln", fun x => (natural_log T x).map .float)
  else if c = "11" then some ("sin (deg)", fun x => .ok (.float (sine T x)))
  else if c = "12" then some ("cos (deg)", fun x => .ok (.float (cosine T x)))
  else if c = "13" then some ("tan (deg)", fun x => .ok (.float (tangent T x)))
  else if c = "14" then some ("factorial", fun x =>
    (factorial x).map (fun n => .int (n : ℤ)))
  else if c = "15" then some ("abs", fun x => .ok (.float (absolute x)))
  else if c = "16" then some ("10^x", fun x => .ok (.float (power_of_ten T x)))
  else if c = "17" then some ("to radians", fun x => .ok (.float (to_radians T x)))
  else if c = "18" then some ("to degrees", fun x => .ok (.float (to_degrees T x)))
  else if c = "19" then some ("sign", fun x => .ok (.int (sign x)))
  else if c = "25" then some ("sinh", fun x => .ok (.float (sinh T x)))
  else if c = "26" then some ("cosh", fun x => .ok (.float (cosh T x)))
  else if c = "27" then some ("tanh", fun x => .ok (.float (tanh T x)))
  else if c = "28" then some ("asin (return deg)", fun x => (asin T x).map .float)
  else if c = "29" then some ("acos (return deg)", fun x => (acos T x).map .float)
  else if c = "30" then some ("atan (return deg)", fun x => .ok (.float (atan T x)))
  else none

/-- The `BINARY_OPS` catalog (choices 1-6, 8, 21-24). -/
def BINARY_OPS (T : Trans) (c : String) :
    Option (String × (ℚ → ℚ → Except OpErr PyVal)) :=
  if c = "1" then some ("add", fun x y => .ok (.float (add x y)))
  else if c = "2" then some ("subtract", fun x y => .ok (.float (subtract x y)))
  else if c = "3" then some ("multiply", fun x y => .ok (.float (multiply x y)))
  else if c = "4" then some ("divide", fun x y => (divide x y).map .float)
  else if c = "5" then some ("exponent", fun x y => (exponent T x y).map .float)
  else if c = "6" then some ("modulus", fun x y => (modulus x y).map .float)
  else if c = "8" then some ("floor_divide", fun x y =>
    (floor_divide x y).map (fun n => .int n))
  else if c = "21" then some ("percentage", fun x y => .ok (.float (percentage x y)))
  else if c = "22" then some ("gcd", fun x y => .ok (.int (gcd x y)))
  else if c = "23" then some ("lcm", fun x y => .ok (.int (lcm x y)))
  else if c = "24" then some ("log base", fun x y => (log_custom T x y).map .float)
  else none

/-! ### Session state

`Calculator` in calculater.py owns `history` (a list of formatted strings,
modelled below by the data those strings are formatted from) and `memory`
(`Optional[Number]`, holding whatever a successful computation returned).
Every handler computes first and touches the state only on success: in
`_handle_eval` the failure branch is explicit, and in `_handle_unary`,
`_handle_binary` and `_handle_clamp` an exception raised by the operation
propagates to `run()`'s handler before the `history.append` and
`self.memory` writes are reached. -/

/-- One history line: the data behind the formatted strings
`eval({expr}) = {result}`, `{name}({x}) = {result}`,
`{name}({a}, {b}) = {result}` and `clamp({x}, {mn}, {mx}) = {result}`. -/
inductive HistEntry where
  | eval : Expr → PyVal → HistEntry
  | unary : String → ℚ → PyVal → HistEntry
  | binary : String → ℚ → ℚ → PyVal → HistEntry
  | clamp : ℚ → ℚ → ℚ → PyVal → HistEntry
deriving DecidableEq, Repr

/-- The session state owned by a `Calculator` (also by the small tkinter
session of `launch_tkinter`). -/
structure CalcState where
  history : List HistEntry
  memory : Option PyVal
deriving DecidableEq, Repr

/-- `Calculator._handle_eval`: evaluate the entered expression with the
current memory; on failure only print the error (state untouched); on
success append to history and store the result in memory. -/
def handleEval (T : Trans) (s : CalcState) (e : Expr) : CalcState :=
  match evaluate_expression T e s.memory with
  | .error _ => s
  | .ok r => { history := s.history ++ [.eval e r], memory := some r }

/-- `on_eval` inside `launch_tkinter`: the same control flow against the
same evaluator — display the error and leave the session state alone, or
display the result, append to history and update memory. -/
def onEval (T : Trans) (s : CalcState) (e : Expr) : CalcState :=
  match evaluate_expression T e s.memory with
  | .error _ => s
  | .ok r => { history := s.history ++ [.eval e r], memory := some r }

/-- `Calculator._handle_unary`: look up the chosen operation, apply it to
the parsed number; an exception leaves the state unchanged (it propagates
to `run()` before the state writes), success appends to history and stores
the result in memory.  (`run()` dispatches here only for choices present in
the catalog; an absent choice is modelled as a no-op.) -/
def handleUnary (T : Trans) (s : CalcState) (choice : String) (x : ℚ) :
    CalcState :=
  match UNARY_OPS T choice with
  | Option.none => s
  | some (nm, f) =>
    match f x with
    | .error _ => s
    | .ok r => { history := s.history ++ [.unary nm x r], memory := some r }

/-- `Calculator._handle_binary`: the same discipline for the two-argument
catalog. -/
def handleBinary (T : Trans) (s : CalcState) (choice : String) (x y : ℚ) :
    CalcState :=
  match BINARY_OPS T choice with
  | Option.none => s
  | some (nm, f) =>
    match f x y with
    | .error _ => s
    | .ok r => { history := s.history ++ [.binary nm x y r], memory := some r }

/-- `Calculator._handle_clamp` (menu choice 20): the same discipline for
the three-argument `clamp`. -/
def handleClamp (s : CalcState) (x mn mx : ℚ) : CalcState :=
  match clamp x mn mx with
  | .error _ => s
  | .ok r =>
    { history := s.history ++ [.clamp x mn mx (.float r)],
      memory := some (.float r) }

/-- A concrete instantiation of the abstract host math functions, used to
evaluate theorems on concrete inputs: rational placeholders, with `log10`
and `sqrt` exact at the sample points the spec exercises. -/
def ratTrans : Trans where
  sin := fun q => q / 2
  cos := fun q => q / 3
  tan := fun q => q / 5
  asin := fun q => q
  acos := fun q => q
  atan := fun q => q
  sinh := fun q => q
  cosh := fun q => q
  tanh := fun q => q
  exp := fun q => q
  log := fun q => q
  log10 := fun q => if q = 100 then 2 else 0
  sqrt := fun q => if q = 16 then 4 else 0
  logBase := fun q _ => q
  powf := fun q _ => q
  pi := 355 / 113
  e := 271 / 100

/-! ### The smart phrase normalizer

`parse_smart_expression` in smart_calculator_gui.py rewrites English math
phrases into expression text with a fixed sequence of `re.sub` passes.  It
is modelled at whitespace-token level: the input is split on runs of
whitespace and each regex pass becomes a pass over the token list.  This is
faithful for inputs whose pattern words are whitespace-separated tokens —
each capture group `([\w\.\(\)]+)` matches exactly a maximal whitespace-free
run of those characters, and the `\b`-delimited word alternatives match
exactly a whole token (the model keeps a multi-space `what   is` or an `=`
glued to word characters out of scope; no claim exercises those).  The final
`re.sub(r"\s+", " ", s).strip()` collapse corresponds to joining the tokens
with single spaces. -/

/-- Character class `[\w\.\(\)]` of the sentence-pattern capture groups
(ASCII word characters, dot and parentheses). -/
def isWordChar (c : Char) : Bool :=
  c.isAlphanum || c = '_' || c = '.' || c = '(' || c = ')'

/-- A token wholly matched by `[\w\.\(\)]+`. -/
def isWordTok (t : String) : Bool :=
  t ≠ "" && t.toList.all isWordChar

/-- A token wholly matched by the function-argument class `[-\w\.\(\)]+`. -/
def isArgTok (t : String) : Bool :=
  t ≠ "" && t.toList.all (fun c => isWordChar c || c = '-')

/-- Split into maximal whitespace-free tokens (the `\s+` runs of the
source's patterns). -/
def tokAux : List Char → List Char → List String
  | [], acc => if acc = [] then [] else [String.mk acc]
  | c :: cs, acc =>
    if c.isWhitespace then
      (if acc = [] then tokAux cs [] else String.mk acc :: tokAux cs [])
    else tokAux cs (acc ++ [c])

/-- Tokenize a string on whitespace. -/
def tokens (s : String) : List String := tokAux s.toList []

/-- Python `str.strip()`. -/
def pyStrip (s : String) : String :=
  String.mk (((s.toList.dropWhile Char.isWhitespace).reverse.dropWhile
    Char.isWhitespace).reverse)

/-- Python `str.lower()` for the ASCII inputs at hand. -/
def lowerStr (s : String) : String := String.mk (s.toList.map Char.toLower)

/-- Pass for `subtract X from Y` → `(Y - X)`. -/
def subtractFromPass : List String → List String
  | "subtract" :: a :: "from" :: b :: rest =>
    if isWordTok a && isWordTok b then
      ("(" ++ b ++ " - " ++ a ++ ")") :: subtractFromPass rest
    else "subtract" :: subtractFromPass (a :: "from" :: b :: rest)
  | t :: rest => t :: subtractFromPass rest
  | [] => []

/-- Pass for `add X and Y` → `(X + Y)`. -/
def addAndPass : List String → List String
  | "add" :: a :: "and" :: b :: rest =>
    if isWordTok a && isWordTok b then
      ("(" ++ a ++ " + " ++ b ++ ")") :: addAndPass rest
    else "add" :: addAndPass (a :: "and" :: b :: rest)
  | t :: rest => t :: addAndPass rest
  | [] => []

/-- Pass for `multiply X by Y` → `(X * Y)`. -/
def multiplyByPass : List String → List String
  | "multiply" :: a :: "by" :: b :: rest =>
    if isWordTok a && isWordTok b then
      ("(" ++ a ++ " * " ++ b ++ ")") :: multiplyByPass rest
    else "multiply" :: multiplyByPass (a :: "by" :: b :: rest)
  | t :: rest => t :: multiplyByPass rest
  | [] => []

/-- Pass for `divide X by Y` → `(X / Y)`. -/
def divideByPass : List String → List String
  | "divide" :: a :: "by" :: b :: rest =>
    if isWordTok a && isWordTok b then
      ("(" ++ a ++ " / " ++ b ++ ")") :: divideByPass rest
    else "divide" :: divideByPass (a :: "by" :: b :: rest)
  | t :: rest => t :: divideByPass rest
  | [] => []

/-- Filler removal: `what is`, `calculate`, `compute`, `please` vanish. -/
def fillerPass : List String → List String
  | "what" :: "is" :: rest => fillerPass rest
  | t :: rest =>
    if t = "calculate" || t = "compute" || t = "please" then fillerPass rest
    else t :: fillerPass rest
  | [] => []

/-- Pass for `power X to|by|and Y` → `(X ** Y)`. -/
def powerPass : List String → List String
  | "power" :: a :: c :: b :: rest =>
    if (c = "to" || c = "by" || c = "and") && isWordTok a && isWordTok b then
      ("(" ++ a ++ " ** " ++ b ++ ")") :: powerPass rest
    else "power" :: powerPass (a :: c :: b :: rest)
  | t :: rest => t :: powerPass rest
  | [] => []

/-- One single-word entry of the `word_map` table. -/
def replaceTok (old new : String) (l : List String) : List String :=
  l.map (fun t => if t = old then new else t)

/-- One two-word entry of the `word_map` table. -/
def replacePair (w1 w2 new : String) : List String → List String
  | t1 :: t2 :: rest =>
    if t1 = w1 && t2 = w2 then new :: replacePair w1 w2 new rest
    else t1 :: replacePair w1 w2 new (t2 :: rest)
  | l => l

/-- The `word_map` replacements, applied in the table's insertion order. -/
def wordMapPass (l : List String) : List String :=
  replacePair "percent" "of" "%"
    (replaceTok "percent" "%"
      (replaceTok "power" "**"
        (replaceTok "subtract" "-"
          (replaceTok "add" "+"
            (replaceTok "divide" "/"
              (replacePair "divided" "by" "/"
                (replaceTok "over" "/"
                  (replacePair "multiplied" "by" "*"
                    (replaceTok "times" "*"
                      (replaceTok "minus" "-"
                        (replaceTok "plus" "+"
                          (replaceTok "and" "+" l))))))))))))

/-- Call-syntax attachment for one function name: `sin 30` → `sin(30)`. -/
def attachCall (fn : String) : List String → List String
  | t1 :: t2 :: rest =>
    if t1 = fn && isArgTok t2 then
      (fn ++ "(" ++ t2 ++ ")") :: attachCall fn rest
    else t1 :: attachCall fn (t2 :: rest)
  | l => l

/-- Call-syntax attachment over the source's `func_names` list, in order. -/
def funcPass (l : List String) : List String :=
  attachCall "log10"
    (attachCall "log"
      (attachCall "sqrt"
        (attachCall "atan"
          (attachCall "acos"
            (attachCall "asin"
              (attachCall "tan"
                (attachCall "cos"
                  (attachCall "sin" l))))))))

/-- `s.replace("^", "**")` on one token. -/
def caretTok (t : String) : String :=
  String.join (t.toList.map (fun c => if c = '^' then "**" else String.mk [c]))

/-- `parse_smart_expression(text)`: strip, return `""` for empty input,
lowercase, run the rewrite passes in source order, join with single spaces,
and fall back to the stripped original when the result is empty. -/
def parse_smart_expression (text : String) : String :=
  let original := pyStrip text
  if original = "" then ""
  else
    let ts := tokens (lowerStr original)
    let ts := subtractFromPass ts
    let ts := addAndPass ts
    let ts := multiplyByPass ts
    let ts := divideByPass ts
    let ts := fillerPass ts
    let ts := powerPass ts
    let ts := wordMapPass ts
    let ts := funcPass ts
    let ts := ts.map caretTok
    let res := String.intercalate " " ts
    if res = "" then original else res

/-! ### Expressions named by the claims -/

/-- The expression `sin(30) + log10(100) - sqrt(16)`. -/
def sinLogSqrtExpr : Expr :=
  .binop .sub
    (.binop .add (.call1 (.name "sin") (.intLit 30))
      (.call1 (.name "log10") (.intLit 100)))
    (.call1 (.name "sqrt") (.intLit 16))

def addFourFiveExpr : Expr := .binop .add (.intLit 4) (.intLit 5)

/-- The expression `(20 - 9)`. -/
def subNineTwentyExpr : Expr := .binop .sub (.intLit 20) (.intLit 9)

/-- The expression `(7 * 8)`. -/
def mulSevenEightExpr : Expr := .binop .mul (.intLit 7) (.intLit 8)

/-- The expression `(0).__class__`: a double-underscore token reached by
attribute access on a literal, with no identifier lookup at all. -/
def dunderAttrExpr : Expr := .attr (.intLit 0) "__class__"

/-- The expression `2 + 2`. -/
def twoPlusTwoExpr : Expr := .binop .add (.intLit 2) (.intLit 2)

/-- The expression `M * 3`. -/
def memTimesThreeExpr : Expr := .binop .mul (.name "M") (.intLit 3)

/-! ### Helper lemmas about truncation -/

theorem pyInt_intCast (n : ℤ) : pyInt (n : ℚ) = n := by
  unfold pyInt
  simp [Rat.num_intCast, Rat.den_intCast, Int.tdiv_one]

theorem pyInt_trunc (q : ℚ) : pyInt q = if q < 0 then ⌈q⌉ else ⌊q⌋ := by
  unfold pyInt
  split
  case isTrue h =>
    have hnum : q.num < 0 := by
      by_contra hc
      exact absurd (Rat.num_nonneg.mp (le_of_not_lt hc)) (not_le.mpr h)
    have hrw : q.num.tdiv (q.den : ℤ) = -((-q.num).tdiv (q.den : ℤ)) := by
      rw [Int.neg_tdiv, Int.neg_neg]
    rw [hrw, Int.tdiv_eq_ediv (by omega) (by positivity)]
    have hfl : ⌊-q⌋ = (-q.num) / ((q.den : ℤ)) := by
      have := Rat.floor_def (q := -q)
      rwa [Rat.num_neg_eq_neg_num, Rat.den_neg_eq_den] at this
    rw [← hfl, Int.floor_neg, Int.neg_neg]
  case isFalse h =>
    have hnum : 0 ≤ q.num := Rat.num_nonneg.mpr (le_of_not_lt h)
    rw [Int.tdiv_eq_ediv hnum (by positivity), Rat.floor_def]

theorem pyInt_of_den_one (q : ℚ) (h : q.den = 1) : pyInt q = q.num := by
  unfold pyInt
  rw [h]
  simp

/-! ### Claim theorems -/

/-- C1: the claim asserts that every expression containing a
double-underscore token fails with InvalidExpression in both evaluators,
never resolving the token.  calculater.py's `evaluate_expression` performs
no dunder check, so the dunder attribute access `(0).__class__` does not
fail with InvalidExpression: the inner evaluation resolves it to the host
class object `int`, and the failure reported is NonNumericResult.  (Only
the GUI's `evaluate_expression_safe`, which tests the source text for `__`
before evaluating, rejects it with InvalidExpression.) -/
theorem c1_dunder_attribute_escapes_evaluate_expression :
    hasDunder dunderAttrExpr = true ∧
    evalExpr ratTrans (safeMathNamespace ratTrans none) dunderAttrExpr =
      .ok (.obj "int") ∧
    evaluate_expression ratTrans dunderAttrExpr none =
      .error .nonNumericResult ∧
    evaluate_expression_safe ratTrans dunderAttrExpr =
      .error .invalidExpression :=
  ⟨rfl, rfl, rfl, rfl⟩

/-- C2 counterexample: with no prior result, `_safe_math_namespace` still
binds the identifier `M` (to `None`), and evaluating the bare expression
`M` fails with NonNumericResult — not, as claimed, as an unresolvable
identifier with InvalidExpression. -/
theorem c2_memory_placeholder_present_counterexample :
    safeMathNamespace ratTrans none "M" = some .none ∧
    evaluate_expression ratTrans (.name "M") none =
      .error .nonNumericResult :=
  ⟨rfl, rfl⟩

/-- C2 (amended): when no prior result exists, the namespace binds `M` to
the null value `None`; the bare expression `M` then fails with
NonNumericResult, and an arithmetic use such as `M * 3` fails with
InvalidExpression (the host `TypeError`, wrapped) — in neither case does
`M` evaluate against a numeric default. -/
theorem c2_memory_placeholder_null_when_absent (T : Trans) :
    safeMathNamespace T none "M" = some .none ∧
    evaluate_expression T (.name "M") none = .error .nonNumericResult ∧
    evaluate_expression T (.binop .mul (.name "M") (.intLit 3)) none =
      .error .invalidExpression :=
  ⟨rfl, rfl, rfl⟩

/-- Witness for the amended C2 at the concrete host instantiation. -/
theorem c2_memory_placeholder_null_when_absent_witness :
    safeMathNamespace ratTrans none "M" = some .none ∧
    evaluate_expression ratTrans (.binop .mul (.name "M") (.intLit 3)) none =
      .error .invalidExpression :=
  ⟨(c2_memory_placeholder_null_when_absent ratTrans).1,
    (c2_memory_placeholder_null_when_absent ratTrans).2.2⟩

/-- C3: for every pair of numbers, `divide(x, y)` fails with DivisionByZero
when `y = 0`, and returns the floating-point quotient `x / y` when
`y ≠ 0`. -/
theorem c3_divide_division_by_zero_else_quotient (x y : ℚ) :
    (y = 0 → divide x y = .error .divisionByZero) ∧
    (y ≠ 0 → divide x y = .ok (x / y)) := by
  constructor
  · intro h
    simp [divide, h]
  · intro h
    simp [divide, h]

/-- Witness for C3 at `divide(1, 0)` and `divide(6, 3)`. -/
theorem c3_divide_division_by_zero_else_quotient_witness :
    divide 1 0 = .error .divisionByZero ∧ divide (6 : ℚ) 3 = .ok 2 := by
  constructor
  · exact (c3_divide_division_by_zero_else_quotient 1 0).1 rfl
  · have h := (c3_divide_division_by_zero_else_quotient (6 : ℚ) 3).2 (by norm_num)
    rw [h]
    norm_num

/-- C4: for every integral `x ≥ 0`, `factorial(x)` returns the standard
factorial of the (truncated, here exact) integer value of `x`; for
non-integral or negative `x` it fails with DomainError. -/
theorem c4_factorial_integral_nonneg_else_domain_error (x : ℚ) :
    (x.den = 1 ∧ 0 ≤ x →
      factorial x = .ok (Nat.factorial (pyInt x).toNat) ∧ ((pyInt x : ℤ) : ℚ) = x) ∧
    (x.den ≠ 1 ∨ x < 0 → factorial x = .error .domainError) := by
  constructor
  · rintro ⟨hden, hx⟩
    have hpy : pyInt x = x.num := pyInt_of_den_one x hden
    have hnum : 0 ≤ x.num := Rat.num_nonneg.mpr hx
    have hxeq : ((x.num : ℤ) : ℚ) = x := by
      have := Rat.num_div_den x
      rw [hden] at this
      simpa using this
    refine ⟨?_, by rw [hpy]; exact hxeq⟩
    unfold factorial isIntegerFloat
    rw [hden]
    simp [hpy, not_lt.mpr hnum]
  · intro h
    rcases h with h | h
    · unfold factorial isIntegerFloat
      simp [h]
    · by_cases hden : x.den = 1
      · have hpy : pyInt x = x.num := pyInt_of_den_one x hden
        have hnum : x.num < 0 := by
          by_contra hc
          exact absurd (Rat.num_nonneg.mp (le_of_not_lt hc)) (not_le.mpr h)
        unfold factorial isIntegerFloat
        rw [hden]
        simp [hpy, hnum]
      · unfold factorial isIntegerFloat
        simp [hden]

/-- Witness for C4 at `factorial(5)`, `factorial(3.5)` and `factorial(-3)`. -/
theorem c4_factorial_integral_nonneg_else_domain_error_witness :
    ((5 : ℚ).den = 1 ∧ (0 : ℚ) ≤ 5) ∧
    factorial 5 = .ok (Nat.factorial (pyInt 5).toNat) ∧
    factorial (mkRat 7 2) = .error .domainError ∧
    factorial (-3) = .error .domainError := by
  refine ⟨⟨by decide, by decide⟩, ?_, ?_, ?_⟩
  · exact ((c4_factorial_integral_nonneg_else_domain_error 5).1 ⟨by decide, by decide⟩).1
  · exact (c4_factorial_integral_nonneg_else_domain_error (mkRat 7 2)).2 (Or.inl (by decide))
  · exact (c4_factorial_integral_nonneg_else_domain_error (-3)).2 (Or.inr (by decide))

/-- C5: `gcd` and `lcm` depend only on the integer-truncated values of their
inputs, `lcm` returns 0 whenever either input truncates to 0, and both
results are always non-negative. -/
theorem c5_gcd_lcm_truncation_zero_nonneg (x y : ℚ) :
    gcd x y = gcd ((pyInt x : ℤ) : ℚ) ((pyInt y : ℤ) : ℚ) ∧
    lcm x y = lcm ((pyInt x : ℤ) : ℚ) ((pyInt y : ℤ) : ℚ) ∧
    (pyInt x = 0 ∨ pyInt y = 0 → lcm x y = 0) ∧
    0 ≤ gcd x y ∧ 0 ≤ lcm x y := by
  refine ⟨by simp [gcd, pyInt_intCast], by simp [lcm, pyInt_intCast], ?_, ?_, ?_⟩
  · intro h
    simp [lcm, h]
  · exact Int.natCast_nonneg _
  · unfold lcm
    by_cases h : pyInt x = 0 ∨ pyInt y = 0
    · simp [h]
    · simp only [h, if_false]
      exact Int.fdiv_nonneg (abs_nonneg _) (Int.natCast_nonneg _)

/-- Witness for C5: `lcm` vanishes when an input truncates to 0, and the
results at mixed-sign inputs are non-negative. -/
theorem c5_gcd_lcm_truncation_zero_nonneg_witness :
    (pyInt (mkRat 1 2) = 0 ∨ pyInt (3 : ℚ) = 0) ∧
    lcm (mkRat 1 2) 3 = 0 ∧
    0 ≤ gcd (-4) 6 ∧ 0 ≤ lcm (-4) 6 := by
  refine ⟨Or.inl (by decide), ?_, ?_, ?_⟩
  · exact (c5_gcd_lcm_truncation_zero_nonneg (mkRat 1 2) 3).2.2.1 (Or.inl (by decide))
  · exact (c5_gcd_lcm_truncation_zero_nonneg (-4) 6).2.2.2.1
  · exact (c5_gcd_lcm_truncation_zero_nonneg (-4) 6).2.2.2.2

/-- C6: `sine`/`cosine`/`tangent` interpret their input as degrees — they
apply the host trig function to `x * pi / 180` — and so do the
`sin`/`cos`/`tan` bindings of the evaluator namespace; consequently, for a
host library whose `log10` is exact at 100 and whose `sqrt` is exact at 16,
`evaluate("sin(30) + log10(100) - sqrt(16)")` returns exactly
`sin(30 degrees) + 2 - 4`. -/
theorem c6_trig_in_degrees (T : Trans) (h10 : T.log10 100 = 2)
    (h16 : T.sqrt 16 = 4) :
    (∀ x : ℚ, sine T x = T.sin (to_radians T x)) ∧
    (∀ x : ℚ, cosine T x = T.cos (to_radians T x)) ∧
    (∀ x : ℚ, tangent T x = T.tan (to_radians T x)) ∧
    safeMathNamespace T none "sin" = some (.func .sinDeg) ∧
    safeMathNamespace T none "cos" = some (.func .cosDeg) ∧
    safeMathNamespace T none "tan" = some (.func .tanDeg) ∧
    (∀ q : ℚ, applyFn1 T .sinDeg (.float q) =
      .ok (.float (T.sin (q * T.pi / 180)))) ∧
    (∀ q : ℚ, applyFn1 T .cosDeg (.float q) =
      .ok (.float (T.cos (q * T.pi / 180)))) ∧
    (∀ q : ℚ, applyFn1 T .tanDeg (.float q) =
      .ok (.float (T.tan (q * T.pi / 180)))) ∧
    evaluate_expression T sinLogSqrtExpr none =
      .ok (.float (T.sin (30 * T.pi / 180) + 2 - 4)) := by
  refine ⟨fun x => rfl, fun x => rfl, fun x => rfl, rfl, rfl, rfl,
    fun q => rfl, fun q => rfl, fun q => rfl, ?_⟩
  have hsem : evaluate_expression T sinLogSqrtExpr none =
      .ok (.float (T.sin (((30 : ℤ) : ℚ) * T.pi / 180) +
        T.log10 ((100 : ℤ) : ℚ) - T.sqrt ((16 : ℤ) : ℚ))) := rfl
  rw [hsem]
  norm_num [h10, h16]

/-- Witness for C6 at the concrete host instantiation (whose `log10` is 2
at 100 and whose `sqrt` is 4 at 16). -/
theorem c6_trig_in_degrees_witness :
    ratTrans.log10 100 = 2 ∧ ratTrans.sqrt 16 = 4 ∧
    evaluate_expression ratTrans sinLogSqrtExpr none =
      .ok (.float (ratTrans.sin (30 * ratTrans.pi / 180) + 2 - 4)) := by
  refine ⟨by decide, by decide, ?_⟩
  exact (c6_trig_in_degrees ratTrans (by decide) (by decide)).2.2.2.2.2.2.2.2.2

/-- C7: the phrase normalizer rewrites the three English forms into the
canonical expression strings, and those expressions evaluate (through the
GUI's safe evaluator) to 9, 11 and 56. -/
theorem c7_phrase_normalizer_examples (T : Trans) :
    parse_smart_expression "add 4 and 5" = render addFourFiveExpr ∧
    evaluate_expression_safe T addFourFiveExpr = .ok 9 ∧
    parse_smart_expression "subtract 9 from 20" = render subNineTwentyExpr ∧
    evaluate_expression_safe T subNineTwentyExpr = .ok 11 ∧
    parse_smart_expression "multiply 7 by 8" = render mulSevenEightExpr ∧
    evaluate_expression_safe T mulSevenEightExpr = .ok 56 :=
  ⟨rfl, rfl, rfl, rfl, rfl, rfl⟩

/-- Witness for C7 at the concrete host instantiation. -/
theorem c7_phrase_normalizer_examples_witness :
    parse_smart_expression "add 4 and 5" = render addFourFiveExpr ∧
    evaluate_expression_safe ratTrans addFourFiveExpr = .ok 9 :=
  ⟨(c7_phrase_normalizer_examples ratTrans).1,
    (c7_phrase_normalizer_examples ratTrans).2.1⟩

/-- C8: evaluating `2 + 2` and then evaluating `M * 3` with the memory
parameter set to the prior result returns 12. -/
theorem c8_memory_round_trip (T : Trans) (m : PyVal)
    (h : evaluate_expression T twoPlusTwoExpr none = .ok m) :
    evaluate_expression T memTimesThreeExpr (some m) = .ok (.int 12) := by
  have h4 : evaluate_expression T twoPlusTwoExpr none = .ok (.int 4) := rfl
  rw [h4] at h
  have hm : PyVal.int 4 = m := by
    injection h
  rw [← hm]
  rfl

/-- Witness for C8: the round trip at the concrete host instantiation. -/
theorem c8_memory_round_trip_witness :
    evaluate_expression ratTrans twoPlusTwoExpr none = .ok (.int 4) ∧
    evaluate_expression ratTrans memTimesThreeExpr (some (.int 4)) =
      .ok (.int 12) :=
  ⟨rfl, c8_memory_round_trip ratTrans (.int 4) rfl⟩

/-- C9: every handler is atomic — when the evaluation (`_handle_eval`,
`on_eval`) or the invoked operation (`_handle_unary`, `_handle_binary`,
`_handle_clamp`) fails, the session's memory and history are left
unchanged; after every successful evaluation or operation invocation the
memory slot holds the result and the history has exactly the new entry
appended. -/
theorem c9_session_update_atomic (T : Trans) (s : CalcState) :
    (∀ e err, evaluate_expression T e s.memory = .error err →
      handleEval T s e = s ∧ onEval T s e = s) ∧
    (∀ e r, evaluate_expression T e s.memory = .ok r →
      (handleEval T s e).memory = some r ∧
      (handleEval T s e).history = s.history ++ [.eval e r] ∧
      (onEval T s e).memory = some r ∧
      (onEval T s e).history = s.history ++ [.eval e r]) ∧
    (∀ choice nm f x, UNARY_OPS T choice = some (nm, f) →
      (∀ err, f x = .error err → handleUnary T s choice x = s) ∧
      (∀ r, f x = .ok r →
        (handleUnary T s choice x).memory = some r ∧
        (handleUnary T s choice x).history = s.history ++ [.unary nm x r])) ∧
    (∀ choice nm f x y, BINARY_OPS T choice = some (nm, f) →
      (∀ err, f x y = .error err → handleBinary T s choice x y = s) ∧
      (∀ r, f x y = .ok r →
        (handleBinary T s choice x y).memory = some r ∧
        (handleBinary T s choice x y).history =
          s.history ++ [.binary nm x y r])) ∧
    (∀ x mn mx err, clamp x mn mx = .error err → handleClamp s x mn mx = s) ∧
    (∀ x mn mx r, clamp x mn mx = .ok r →
      (handleClamp s x mn mx).memory = some (.float r) ∧
      (handleClamp s x mn mx).history =
        s.history ++ [.clamp x mn mx (.float r)]) := by
  refine ⟨?_, ?_, ?_, ?_, ?_, ?_⟩
  · intro e err h
    constructor <;> simp [handleEval, onEval, h]
  · intro e r h
    refine ⟨?_, ?_, ?_, ?_⟩ <;> simp [handleEval, onEval, h]
  · intro choice nm f x hc
    constructor
    · intro err h
      simp [handleUnary, hc, h]
    · intro r h
      constructor <;> simp [handleUnary, hc, h]
  · intro choice nm f x y hc
    constructor
    · intro err h
      simp [handleBinary, hc, h]
    · intro r h
      constructor <;> simp [handleBinary, hc, h]
  · intro x mn mx err h
    simp [handleClamp, h]
  · intro x mn mx r h
    constructor <;> simp [handleClamp, h]

/-- Witness for C9: on a fresh session, a failing evaluation
(unresolvable identifier), a failing unary operation (`square_root(-1)`),
a failing binary operation (`divide(1, 0)`) and a failing clamp
(`clamp(1, 2, 0)`) each leave the state untouched, while the successful
`2 + 2`, `square_root(16)`, `gcd(4, 6)` and `clamp(5, 0, 10)` each store
their result in memory. -/
theorem c9_session_update_atomic_witness :
    handleEval ratTrans (CalcState.mk [] none) (.name "nosuch") =
      CalcState.mk [] none ∧
    (handleEval ratTrans (CalcState.mk [] none) twoPlusTwoExpr).memory =
      some (.int 4) ∧
    (handleEval ratTrans (CalcState.mk [] none) twoPlusTwoExpr).history =
      [.eval twoPlusTwoExpr (.int 4)] ∧
    handleUnary ratTrans (CalcState.mk [] none) "7" (-1) =
      CalcState.mk [] none ∧
    (handleUnary ratTrans (CalcState.mk [] none) "7" 16).memory =
      some (.float 4) ∧
    handleBinary ratTrans (CalcState.mk [] none) "4" 1 0 =
      CalcState.mk [] none ∧
    (handleBinary ratTrans (CalcState.mk [] none) "22" 4 6).memory =
      some (.int 2) ∧
    handleClamp (CalcState.mk [] none) 1 2 0 = CalcState.mk [] none ∧
    (handleClamp (CalcState.mk [] none) 5 0 10).memory =
      some (.float 5) := by
  refine ⟨?_, ?_, ?_, ?_, ?_, ?_, ?_, ?_, ?_⟩
  · exact ((c9_session_update_atomic ratTrans (CalcState.mk [] none)).1
      (.name "nosuch") .invalidExpression rfl).1
  · exact ((c9_session_update_atomic ratTrans (CalcState.mk [] none)).2.1
      twoPlusTwoExpr (.int 4) rfl).1
  · have h := ((c9_session_update_atomic ratTrans (CalcState.mk [] none)).2.1
      twoPlusTwoExpr (.int 4) rfl).2.1
    simpa using h
  · exact ((c9_session_update_atomic ratTrans (CalcState.mk [] none)).2.2.1
      "7" "square_root" (fun x => (square_root ratTrans x).map .float)
      (-1) rfl).1 .domainError rfl
  · exact (((c9_session_update_atomic ratTrans (CalcState.mk [] none)).2.2.1
      "7" "square_root" (fun x => (square_root ratTrans x).map .float)
      16 rfl).2 (.float 4) rfl).1
  · exact ((c9_session_update_atomic ratTrans (CalcState.mk [] none)).2.2.2.1
      "4" "divide" (fun x y => (divide x y).map .float)
      1 0 rfl).1 .divisionByZero rfl
  · exact (((c9_session_update_atomic ratTrans (CalcState.mk [] none)).2.2.2.1
      "22" "gcd" (fun x y => .ok (.int (gcd x y))) 4 6 rfl).2
      (.int 2) rfl).1
  · exact (c9_session_update_atomic ratTrans (CalcState.mk [] none)).2.2.2.2.1
      1 2 0 .invalidRange (by decide)
  · exact ((c9_session_update_atomic ratTrans (CalcState.mk [] none)).2.2.2.2.2
      5 0 10 5 (by decide)).1

/-- C10: an expression whose evaluation produces a boolean succeeds —
`bool` is an instance of `int`, so `evaluate_expression` returns the
boolean itself and `evaluate_expression_safe` returns its float conversion;
neither fails with NonNumericResult. -/
theorem c10_boolean_result_is_numeric (T : Trans) (e : Expr) (b : Bool)
    (memory : Option PyVal) :
    (evalExpr T (safeMathNamespace T memory) e = .ok (.bool b) →
      evaluate_expression T e memory = .ok (.bool b)) ∧
    (hasDunder e = false →
      evalExpr T (guiMathNamespace T) e = .ok (.bool b) →
      evaluate_expression_safe T e = .ok (if b then 1 else 0)) := by
  constructor
  · intro h
    simp [evaluate_expression, h, isNumericInstance]
  · intro hd h
    simp [evaluate_expression_safe, hd, h, floatConv]

/-- Witness for C10 at the comparison `1 < 2`, which evaluates to `True`. -/
theorem c10_boolean_result_is_numeric_witness :
    evalExpr ratTrans (safeMathNamespace ratTrans none)
      (.binop .lt (.intLit 1) (.intLit 2)) = .ok (.bool true) ∧
    evaluate_expression ratTrans (.binop .lt (.intLit 1) (.intLit 2)) none =
      .ok (.bool true) ∧
    evaluate_expression_safe ratTrans (.binop .lt (.intLit 1) (.intLit 2)) =
      .ok 1 := by
  refine ⟨rfl, ?_, ?_⟩
  · exact (c10_boolean_result_is_numeric ratTrans
      (.binop .lt (.intLit 1) (.intLit 2)) true none).1 rfl
  · have h := (c10_boolean_result_is_numeric ratTrans
      (.binop .lt (.intLit 1) (.intLit 2)) true none).2 rfl rfl
    simpa using h

end Calc

section ScratchChecks

example : Calc.pyInt (mkRat 7 2) = 3 := by decide
example : Calc.pyInt (mkRat (-7) 2) = -3 := by decide
example : Calc.factorial 5 = .ok 120 := by decide
example : Calc.factorial (mkRat 7 2) = .error .domainError := by decide
example : Calc.gcd (-4) 6 = 2 := by decide
example : Calc.lcm 4 6 = 12 := by decide
example : Calc.lcm (-4) 6 = 12 := by decide

example :
    Calc.evaluate_expression Calc.ratTrans
      (.binop .add (.intLit 2) (.intLit 2)) none = .ok (.int 4) := rfl

example :
    Calc.evaluate_expression Calc.ratTrans (.name "M") none =
      .error .nonNumericResult := rfl

example :
    Calc.evaluate_expression Calc.ratTrans
      (.binop .mul (.name "M") (.intLit 3)) (some (.int 4)) =
      .ok (.int 12) := rfl

example :
    Calc.evaluate_expression Calc.ratTrans
      (.attr (.intLit 0) "__class__") none = .error .nonNumericResult := rfl

example :
    Calc.evalExpr Calc.ratTrans (Calc.safeMathNamespace Calc.ratTrans none)
      (.attr (.intLit 0) "__class__") = .ok (.obj "int") := rfl

example :
    Calc.evaluate_expression_safe Calc.ratTrans
      (.attr (.intLit 0) "__class__") = .error .invalidExpression := rfl

example :
    Calc.evaluate_expression Calc.ratTrans
      (.binop .lt (.intLit 1) (.intLit 2)) none = .ok (.bool true) := rfl

example :
    Calc.evaluate_expression_safe Calc.ratTrans
      (.binop .lt (.intLit 1) (.intLit 2)) = .ok 1 := rfl

example : Calc.render (.binop .add (.intLit 4) (.intLit 5)) = "(4 + 5)" := rfl

example : Calc.parse_smart_expression "add 4 and 5" = "(4 + 5)" := rfl
example : Calc.parse_smart_expression "subtract 9 from 20" = "(20 - 9)" := rfl
example : Calc.parse_smart_expression "multiply 7 by 8" = "(7 * 8)" := rfl
example : Calc.parse_smart_expression "what is 3 plus 4" = "3 + 4" := rfl
example : Calc.parse_smart_expression "sin 30" = "sin(30)" := rfl
example : Calc.parse_smart_expression "2^3" = "2**3" := rfl
example : Calc.parse_smart_expression "  " = "" := rfl

end ScratchChecks
